import Mathlib

/-!
Verification of the client-side health-polling component
(`src/components/HealthStatus.tsx`) and its server-rendered collaborators
(`src/components/JsonStatusServer.tsx`, `src/components/HealthStatusServer.tsx`)
of the Next.js frontend scaffold.

The client component is embedded as an explicit event-driven state machine:
the React lifecycle (mount / unmount), the `setInterval` timer ticks, and the
asynchronous resolution of in-flight `fetch` probes are the events.  React's
runtime rule that a state setter invoked on an unmounted component neither
updates state nor triggers a render is part of the platform semantics and is
reflected in the `resolve` case of `step`.
-/

namespace HealthFrontend

/-- Outcome of one `fetch` probe as seen at the `await` boundary: either an
HTTP response carrying a status code (the body is ignored by the health
check), or a network-level rejection (timeout, DNS failure, connection
refused, thrown exception). -/
inductive ProbeResult where
  | response (status : Nat)
  | thrown
deriving DecidableEq

/-- `Response.ok` of the WHATWG fetch standard: status in the range 200..299. -/
def resOk (status : Nat) : Bool :=
  decide (200 ≤ status ∧ status < 300)

/-- The raw `fetch` at the probe boundary: a response yields its status, a
network-level failure is a rejection (modelled as `Except.error`). -/
def fetchProbe (o : ProbeResult) : Except Unit Nat :=
  match o with
  | .response st => .ok st
  | .thrown => .error ()

/-- `checkHealth` of `HealthStatus.tsx`: `try { const res = await fetch(url);
setIsHealthy(res.ok); } catch (err) { console.error(err); setIsHealthy(false); }`.
Returns the boolean passed to `setIsHealthy` and whether `console.error` ran.
The function is total: the try/catch confines every probe failure, so no
failure escapes as an unhandled fault. -/
def checkHealth (o : ProbeResult) : Bool × Bool :=
  match fetchProbe o with
  | .ok st => (resOk st, false)
  | .error _ => (false, true)

/-- The spec's tri-state HealthStatus, as an abstraction of the component's
`isHealthy : boolean | null` state (`null` = Unknown). -/
inductive HealthTri where
  | Unknown
  | Healthy
  | Unhealthy
deriving DecidableEq

/-- Map the stored `isHealthy` value to the spec's tri-state. -/
def triOf : Option Bool → HealthTri
  | none => .Unknown
  | some true => .Healthy
  | some false => .Unhealthy

/-- `backendHealthUrl = process.env.NEXT_PUBLIC_BACKEND_HEALTH_URL || ""`:
an absent variable, like an empty one, yields the empty string. -/
def backendHealthUrl (env : Option String) : String :=
  match env with
  | none => ""
  | some s => if s = "" then "" else s

/-- The interval passed to `setInterval(checkHealth, 10000)`. -/
def pollIntervalMs : Nat := 10000

/-- Lifecycle phase of one component instance: not yet mounted, mounted, or
unmounted.  React never re-mounts the same instance, so `Done` is final. -/
inductive Phase where
  | Init
  | Active
  | Done
deriving DecidableEq

/-- State of one `HealthStatus` component instance together with its owned
resources: the `useState` cell, the active `setInterval` handles (recorded by
their period), the number of in-flight probes, and a count of all `fetch`
calls ever issued (instrumentation for the no-network-call claims). -/
structure PollerState where
  phase : Phase
  isHealthy : Option Bool
  activeTimers : List Nat
  inFlight : Nat
  fetchCount : Nat
deriving DecidableEq

/-- State before the component is mounted: `useState<boolean | null>(null)`. -/
def initState : PollerState :=
  { phase := .Init, isHealthy := none, activeTimers := [], inFlight := 0, fetchCount := 0 }

/-- Events driving one component instance. -/
inductive Event where
  | mount
  | tick
  | resolve (r : ProbeResult)
  | unmount
deriving DecidableEq

/-- One step of the component's event semantics, translated from the
`useEffect` body of `HealthStatus.tsx`:
* `mount`: the effect runs once; `if (!backendHealthUrl) return;` otherwise it
  calls `checkHealth()` immediately (one probe issued) and registers
  `setInterval(checkHealth, 10000)`;
* `tick`: a registered interval fires and calls `checkHealth()`, issuing a
  probe whether or not earlier probes have resolved;
* `resolve r`: an in-flight probe's `await` completes; `setIsHealthy` stores
  `(checkHealth r).1` — but React drops a setter call on an unmounted
  component, so after `unmount` the stored state is untouched;
* `unmount`: the effect cleanup `() => clearInterval(interval)` runs, removing
  the one registered interval. -/
def step (url : String) (s : PollerState) (e : Event) : PollerState :=
  match e with
  | .mount =>
      if s.phase = .Init then
        if url = "" then { s with phase := .Active }
        else { s with phase := .Active, activeTimers := [pollIntervalMs],
                      inFlight := s.inFlight + 1, fetchCount := s.fetchCount + 1 }
      else s
  | .tick =>
      if s.phase = .Active ∧ s.activeTimers ≠ [] then
        { s with inFlight := s.inFlight + 1, fetchCount := s.fetchCount + 1 }
      else s
  | .resolve r =>
      if 0 < s.inFlight then
        if s.phase = .Active then
          { s with inFlight := s.inFlight - 1, isHealthy := some (checkHealth r).1 }
        else { s with inFlight := s.inFlight - 1 }
      else s
  | .unmount =>
      if s.phase = .Active then { s with phase := .Done, activeTimers := [] }
      else s

/-- Run a sequence of events from a given state. -/
def run (url : String) (s : PollerState) (events : List Event) : PollerState :=
  events.foldl (step url) s

/-- What the component renders: an optional status dot (its colour class), the
text's class, and the text. -/
structure RenderedView where
  dot : Option String
  textClass : String
  text : String
deriving DecidableEq

/-- The render path of `HealthStatus.tsx`: `null` yields the gray
`Checking...` span; otherwise a green/red dot with "Backend healthy" /
"Backend down".  A pure function of the stored state — it performs no fetch
and mutates nothing. -/
def renderHealth (isHealthy : Option Bool) : RenderedView :=
  match isHealthy with
  | none => { dot := none, textClass := "text-gray-500", text := "Checking..." }
  | some b =>
      { dot := some (if b then "bg-green-500" else "bg-red-500"),
        textClass := "text-sm",
        text := if b then "Backend healthy" else "Backend down" }

/-- A fetch request as configured by the caller: URL, HTTP method, and cache
mode.  `fetch(url)` with no init object uses the Fetch-standard defaults:
method "GET" and cache mode "default" (normal HTTP cache semantics). -/
structure FetchRequest where
  url : String
  method : String
  cache : String
deriving DecidableEq

/-- The request issued by `checkHealth`: `fetch(backendHealthUrl)` with no
init object, hence default method and default cache mode. -/
def probeRequest (url : String) : FetchRequest :=
  { url := url, method := "GET", cache := "default" }

/-- Outcome of the `JsonStatusServer` fetch: a rejection, or a response with
status, statusText, and the result of `res.json()` followed by
`JSON.stringify(data, null, 2)` — `none` when the body is not valid JSON (in
which case `res.json()` rejects), `some pretty` otherwise. -/
inductive JsonFetch where
  | thrown
  | response (status : Nat) (statusText : String) (pretty : Option String)
deriving DecidableEq

/-- What `JsonStatusServer` renders. -/
inductive JsonRender where
  | errorInline (msg : String)
  | jsonView (pretty : String)
deriving DecidableEq

/-- `JsonStatusServer.tsx`: awaits `fetch(url, { cache: "no-store" })` with no
try/catch, renders an inline error div for a non-ok response, otherwise awaits
`res.json()` (also uncaught) and renders the pretty-printed document.
`Except.error` marks an exception escaping the component. -/
def JsonStatusServer (o : JsonFetch) : Except Unit JsonRender :=
  match o with
  | .thrown => .error ()
  | .response st stx pretty =>
      if resOk st = false then
        .ok (.errorInline ("Failed to fetch JSON: " ++ toString st ++ " " ++ stx))
      else
        match pretty with
        | none => .error ()
        | some p => .ok (.jsonView p)

/-- `HealthStatusServer.tsx` (server-rendered variant): awaits
`fetch(process.env.BACKEND_HEALTH_URL!, { cache: "no-store" })` with no
try/catch, then renders the same dot/text pair as the client component.
`Except.error` marks the uncaught rejection escaping the component. -/
def HealthStatusServer (o : ProbeResult) : Except Unit RenderedView :=
  match o with
  | .thrown => .error ()
  | .response st =>
      .ok { dot := some (if resOk st then "bg-green-500" else "bg-red-500"),
            textClass := "text-sm",
            text := if resOk st then "Backend healthy" else "Backend down" }

/-- Once unmounted, a single step changes neither the phase, nor the stored
status, nor the number of fetches issued. -/
theorem step_done (url : String) (s : PollerState) (e : Event) (h : s.phase = .Done) :
    (step url s e).phase = .Done ∧ (step url s e).isHealthy = s.isHealthy ∧
      (step url s e).fetchCount = s.fetchCount := by
  cases e <;> simp [step, h]
  case resolve r =>
    split <;> simp [h]

/-- Once unmounted, no event sequence changes the phase, the stored status, or
the number of fetches issued. -/
theorem run_done (url : String) (events : List Event) :
    ∀ s : PollerState, s.phase = .Done →
      (run url s events).phase = .Done ∧ (run url s events).isHealthy = s.isHealthy ∧
        (run url s events).fetchCount = s.fetchCount := by
  induction events with
  | nil => intro s h; exact ⟨h, rfl, rfl⟩
  | cons e es ih =>
      intro s h
      obtain ⟨h1, h2, h3⟩ := step_done url s e h
      obtain ⟨g1, g2, g3⟩ := ih (step url s e) h1
      exact ⟨g1, g2.trans h2, g3.trans h3⟩

/-- With an empty URL the effect returns before fetching or scheduling:
states reachable from one with no stored status, no timers, no in-flight
probes and no fetches stay that way. -/
def quiescent (s : PollerState) : Prop :=
  s.isHealthy = none ∧ s.activeTimers = [] ∧ s.inFlight = 0 ∧ s.fetchCount = 0

theorem step_empty_quiescent (s : PollerState) (e : Event) (h : quiescent s) :
    quiescent (step "" s e) := by
  obtain ⟨h1, h2, h3, h4⟩ := h
  cases e <;> simp [step, quiescent, h1, h2, h3, h4]
  · split <;> simp [h1, h2, h3, h4]
  · split <;> simp [h1, h2, h3, h4]

theorem run_empty_quiescent (events : List Event) :
    ∀ s : PollerState, quiescent s → quiescent (run "" s events) := by
  induction events with
  | nil => intro s h; exact h
  | cons e es ih => intro s h; exact ih _ (step_empty_quiescent s e h)

/-- Timer-ownership invariant: the component instance holds exactly the one
interval registered by its effect while it is mounted with a non-empty URL,
and none otherwise.  Preserved by every step. -/
theorem step_timers (url : String) (s : PollerState) (e : Event)
    (h : s.activeTimers = if s.phase = .Active ∧ url ≠ "" then [pollIntervalMs] else []) :
    (step url s e).activeTimers =
      if (step url s e).phase = .Active ∧ url ≠ "" then [pollIntervalMs] else [] := by
  cases e <;> simp only [step] <;> split_ifs <;> simp_all

theorem run_timers (url : String) (events : List Event) :
    ∀ s : PollerState,
      s.activeTimers = (if s.phase = .Active ∧ url ≠ "" then [pollIntervalMs] else []) →
      (run url s events).activeTimers =
        (if (run url s events).phase = .Active ∧ url ≠ "" then [pollIntervalMs] else []) := by
  induction events with
  | nil => intro s h; exact h
  | cons e es ih => intro s h; exact ih _ (step_timers url s e h)

/-- Unmounting never leaves the instance in the mounted phase. -/
theorem step_unmount_not_active (url : String) (s : PollerState) :
    ¬ (step url s Event.unmount).phase = .Active := by
  simp only [step]
  split_ifs with hc
  · simp
  · simpa using hc

/-- C1: after deactivation (unmount) no further state mutations or renders
occur — the resolution of a probe still in flight at deactivation does not
update the stored HealthStatus, no further probes are issued, and the
rendered view stays whatever it was at deactivation time. -/
theorem C1_unmount_freezes (url : String) (s : PollerState) (h : s.phase = .Done)
    (events : List Event) :
    (run url s events).isHealthy = s.isHealthy ∧
    (run url s events).fetchCount = s.fetchCount ∧
    renderHealth (run url s events).isHealthy = renderHealth s.isHealthy := by
  obtain ⟨h1, h2, h3⟩ := run_done url events s h
  exact ⟨h2, h3, by rw [h2]⟩

/-- Scenario E for C1: unmounted right after mount issued the first probe;
the probe later resolves with status 200, yet the status stays Unknown. -/
theorem C1_witness :
    (run "https://api.example.com/health"
        (run "https://api.example.com/health" initState [Event.mount, Event.unmount])
        [Event.resolve (ProbeResult.response 200)]).isHealthy = none :=
  ((C1_unmount_freezes "https://api.example.com/health"
      (run "https://api.example.com/health" initState [Event.mount, Event.unmount])
      (by decide) [Event.resolve (ProbeResult.response 200)]).1).trans (by decide)

/-- C2: a response with status in 200..299 yields Healthy, any other status
yields Unhealthy, and a thrown network failure is caught by the try/catch,
logged via console.error, and yields Unhealthy; `checkHealth` is total, so no
probe failure escapes as an unhandled fault. -/
theorem C2_probe_outcomes (st : Nat) :
    (resOk st = true ↔ 200 ≤ st ∧ st ≤ 299) ∧
    checkHealth (.response st) = (resOk st, false) ∧
    checkHealth .thrown = (false, true) ∧
    triOf (some (checkHealth (.response st)).1) =
      (if resOk st then .Healthy else .Unhealthy) ∧
    triOf (some (checkHealth .thrown).1) = .Unhealthy := by
  refine ⟨?_, rfl, rfl, ?_, rfl⟩
  · simp only [resOk, decide_eq_true_eq]
    omega
  · cases hb : resOk st <;> simp [checkHealth, fetchProbe, hb, triOf]

/-- C3: each completed probe overwrites the stored status unconditionally —
after any resolution the stored and rendered status equal that probe's
outcome, whatever the previous status and however many probes remain in
flight (completion order wins, not issuance order). -/
theorem C3_latest_resolution_wins (url : String) (s : PollerState) (r : ProbeResult)
    (h1 : s.phase = .Active) (h2 : 0 < s.inFlight) :
    (step url s (.resolve r)).isHealthy = some (checkHealth r).1 ∧
    renderHealth (step url s (.resolve r)).isHealthy =
      renderHealth (some (checkHealth r).1) := by
  simp [step, h1, h2]

/-- Witness for C3: a failing probe resolving over a previously Healthy
status flips it to Unhealthy. -/
theorem C3_witness :
    (step "u"
        { phase := .Active, isHealthy := some true, activeTimers := [pollIntervalMs],
          inFlight := 1, fetchCount := 3 }
        (.resolve (.response 500))).isHealthy = some false :=
  ((C3_latest_resolution_wins "u"
      { phase := .Active, isHealthy := some true, activeTimers := [pollIntervalMs],
        inFlight := 1, fetchCount := 3 }
      (.response 500) rfl (by decide)).1).trans (by decide)

/-- C4: with an empty (or absent) endpoint the component issues zero network
calls, schedules no timer, and the status stays Unknown over every event
sequence. -/
theorem C4_empty_endpoint_inert (events : List Event) :
    (run "" initState events).fetchCount = 0 ∧
    (run "" initState events).isHealthy = none ∧
    (run "" initState events).activeTimers = [] ∧
    triOf (run "" initState events).isHealthy = .Unknown ∧
    backendHealthUrl none = "" ∧ backendHealthUrl (some "") = "" := by
  obtain ⟨h1, h2, h3, h4⟩ := run_empty_quiescent events initState ⟨rfl, rfl, rfl, rfl⟩
  exact ⟨h4, h1, h2, by rw [h1]; rfl, rfl, rfl⟩

/-- C5: mounting with a non-empty endpoint issues exactly one immediate probe
and registers exactly one interval of period 10000 ms; every later tick of
that interval issues a probe regardless of how many probes are still in
flight. -/
theorem C5_mount_probe_and_interval (url : String) (h : url ≠ "") :
    step url initState .mount =
      { phase := .Active, isHealthy := none, activeTimers := [pollIntervalMs],
        inFlight := 1, fetchCount := 1 } ∧
    pollIntervalMs = 10000 ∧
    (∀ s : PollerState, s.phase = .Active → s.activeTimers ≠ [] →
      (step url s .tick).fetchCount = s.fetchCount + 1 ∧
      (step url s .tick).inFlight = s.inFlight + 1) := by
  refine ⟨?_, rfl, ?_⟩
  · simp [step, initState, h]
  · intro s hs ht
    simp [step, hs, ht]

/-- Witness for C5: concrete mount, then a tick with two probes already in
flight still issues a third fetch. -/
theorem C5_witness :
    step "https://api.example.com/health" initState .mount =
      { phase := .Active, isHealthy := none, activeTimers := [pollIntervalMs],
        inFlight := 1, fetchCount := 1 } ∧
    (step "https://api.example.com/health"
        { phase := .Active, isHealthy := none, activeTimers := [pollIntervalMs],
          inFlight := 2, fetchCount := 2 } .tick).fetchCount = 3 := by
  have h := C5_mount_probe_and_interval "https://api.example.com/health" (by decide)
  refine ⟨h.1, ?_⟩
  have h2 := (h.2.2
    { phase := .Active, isHealthy := none, activeTimers := [pollIntervalMs],
      inFlight := 2, fetchCount := 2 } rfl (by decide)).1
  exact h2.trans (by decide)

/-- C6: rendering is the pure function `renderHealth` of the stored status —
Unknown yields the neutral gray "Checking..." span, Healthy the green dot
with "Backend healthy", Unhealthy the red dot with "Backend down"; being a
plain function of the state it has no side effects and issues no fetch. -/
theorem C6_render_pure_mapping :
    renderHealth none =
      { dot := none, textClass := "text-gray-500", text := "Checking..." } ∧
    renderHealth (some true) =
      { dot := some "bg-green-500", textClass := "text-sm", text := "Backend healthy" } ∧
    renderHealth (some false) =
      { dot := some "bg-red-500", textClass := "text-sm", text := "Backend down" } ∧
    triOf none = .Unknown ∧ triOf (some true) = .Healthy ∧
    triOf (some false) = .Unhealthy :=
  ⟨rfl, rfl, rfl, rfl, rfl, rfl⟩

/-- C7: over every event sequence the instance holds at most one interval,
the interval exists exactly while the instance is mounted with a non-empty
URL, and after a final unmount no interval remains. -/
theorem C7_single_timer (url : String) (events : List Event) :
    (run url initState events).activeTimers.length ≤ 1 ∧
    (run url initState events).activeTimers =
      (if (run url initState events).phase = .Active ∧ url ≠ ""
        then [pollIntervalMs] else []) ∧
    (run url initState (events ++ [Event.unmount])).activeTimers = [] := by
  have h := run_timers url events initState (by simp [initState])
  refine ⟨?_, h, ?_⟩
  · rw [h]
    split <;> simp
  · have h2 : run url initState (events ++ [Event.unmount]) =
        step url (run url initState events) Event.unmount := by
      simp [run, List.foldl_append]
    have h3 := step_timers url (run url initState events) Event.unmount h
    have h4 := step_unmount_not_active url (run url initState events)
    rw [h2, h3]
    simp [h4]

/-- Counterexample for C8: the probe request built by `fetch(backendHealthUrl)`
carries the default cache mode, not a no-caching directive, so the claim that
the probe is performed "with no caching of the response" fails at the concrete
endpoint of the spec's scenarios. -/
theorem C8_cex :
    ¬ ((probeRequest "https://api.example.com/health").method = "GET" ∧
       (probeRequest "https://api.example.com/health").url =
         "https://api.example.com/health" ∧
       (probeRequest "https://api.example.com/health").cache = "no-store") := by
  decide

/-- C8 (amended): every probe is an HTTP GET to the configured endpoint, but
it is issued with the platform's default cache mode ("default"); no explicit
no-caching directive is set. -/
theorem C8_probe_request (url : String) :
    (probeRequest url).method = "GET" ∧ (probeRequest url).url = url ∧
      (probeRequest url).cache = "default" :=
  ⟨rfl, rfl, rfl⟩

/-- Counterexample for C9: a network-level fetch rejection is not caught by
`JsonStatusServer` — no rendered output is produced, the exception
propagates, refuting the claim that every fetch failure is surfaced inline. -/
theorem C9_cex : ¬ ∃ v, JsonStatusServer JsonFetch.thrown = Except.ok v := by
  intro hv
  obtain ⟨v, hv⟩ := hv
  simp [JsonStatusServer] at hv

/-- C9 (amended): a fetch that completes with a non-ok HTTP response is
surfaced as the inline error message "Failed to fetch JSON: status
statusText"; a fetch that rejects at network level (or a body whose JSON
parse fails) instead propagates out of the component as a thrown fault. -/
theorem C9_non_ok_inline (st : Nat) (stx : String) (pretty : Option String)
    (h : resOk st = false) :
    JsonStatusServer (.response st stx pretty) =
      Except.ok (.errorInline ("Failed to fetch JSON: " ++ toString st ++ " " ++ stx)) := by
  simp [JsonStatusServer, h]

/-- Witness for C9 (amended): a 503 response renders the inline error. -/
theorem C9_witness :
    JsonStatusServer (.response 503 "Service Unavailable" none) =
      Except.ok (.errorInline "Failed to fetch JSON: 503 Service Unavailable") := by
  have h := C9_non_ok_inline 503 "Service Unavailable" none (by decide)
  have hs : ("Failed to fetch JSON: " ++ toString 503 ++ " " ++ "Service Unavailable") =
      "Failed to fetch JSON: 503 Service Unavailable" := by decide
  rw [hs] at h
  exact h

/-- C10: in the server-rendered variant `HealthStatusServer` a fetch that
throws is not caught and the exception propagates out of the component,
unlike the client-side `checkHealth`, whose try/catch degrades the same
failure to Unhealthy. -/
theorem C10_server_variant_throws :
    HealthStatusServer ProbeResult.thrown = Except.error () ∧
    (checkHealth ProbeResult.thrown).1 = false ∧
    triOf (some (checkHealth ProbeResult.thrown).1) = HealthTri.Unhealthy :=
  ⟨rfl, rfl, rfl⟩

end HealthFrontend
